import Mathlib

set_option maxRecDepth 16384

/-!
Shallow embedding of `backend/app/widget/project.py`: project assembly
(`Project.__init__`), packaging (`Project.zip`), and the remote lifecycle
(`RemoteProject.__init__`, `run`, `submit`, `__del__`).

The modules `.file` (new_file, find_mains, language detection), `.lab`
(LabList) and `.reporter` (MQReporter) are not part of the repository
snapshot; the pieces of them that the claims need are modelled from the
spec and kept abstract as an `Env` of parameters where the spec fixes no
algorithm.  External effects (the container, the wall clock, the local
filesystem) are passed in explicitly.
-/

namespace Learn

/-- Python exception values raised by the code under `src/`: the source
declares `ProjectError` (raised directly on multiple mains; the spec's
§7 names that failure AssemblyError) with subclasses `BuildError`,
`RunError`, `ProveError`, `SubmitError`.  `attributeError` and
`fileNotFoundError` are the interpreter's own exceptions, reachable from
`submit` (reading the never-assigned `self.lab_list`) and `__del__`
(`shutil.rmtree` on a missing path). -/
inductive PyError where
  | projectError (msg : String)
  | buildError (code : Int)
  | runError (msg : String)
  | proveError (msg : String)
  | submitError (msg : String)
  | attributeError (attr : String)
  | fileNotFoundError (path : String)
  deriving Repr, DecidableEq

/-- An uploaded file record as the task hands it to `Project.__init__`:
the dict `{basename, contents}`. -/
structure RawFile where
  basename : String
  contents : String
  deriving Repr, DecidableEq

/-- A file object as produced by `new_file(name, content)` of the missing
`.file` module, reduced to what `project.py` reads back through
`get_name()` / `get_content()`. -/
structure PFile where
  name : String
  content : String
  deriving Repr, DecidableEq

/-- Mirrors `new_file` of the missing `.file` module. -/
def new_file (name content : String) : PFile := ⟨name, content⟩

/-- One lab test case of the missing `.lab` module.  Modelled from the
spec: a TestCase is `{key, input tokens, expected output}` and its oracle
is exact string match on the output. -/
structure Lab where
  key : String
  input : List String
  expected : String
  deriving Repr, DecidableEq

/-- A lab after grading: `check_actual(out, code)` records the actual
output and exit code on the case.  Modelled from the spec. -/
structure GradedLab where
  lab : Lab
  actual_output : String
  actual_code : Int
  deriving Repr, DecidableEq

/-- Parameters of the embedding that live in the missing `.file` / `.lab`
modules or in static configuration.  Modelled from the spec:
`is_main` is the per-file "main subprogram signature" test `find_mains`
applies, `language` the extension/content language heuristic,
`gprTemplate` the fixed manifest template text read from
`TEMPLATE_PROJECT`, `gprRender` the manifest serialisation after
`insert_languages` / `define_mains`, and `parseLabs` the LabList parser
for the test-specification blob. -/
structure Env where
  is_main : PFile → Bool
  language : PFile → String
  gprTemplate : String
  gprRender : String → List String → List String → String
  parseLabs : String → List Lab

def CLI_FILE : String := "cli.txt"

def LAB_IO_FILE : String := "lab_io.txt"

/-- The constant `COMMON_ADC` of `project.py`, character for character
(the triple-quoted literal begins and ends with a newline). -/
def COMMON_ADC : String :=
  "\npragma Restrictions (No_Specification_of_Aspect => Import);\npragma Restrictions (No_Use_Of_Pragma => Import);\npragma Restrictions (No_Use_Of_Pragma => Interface);\npragma Restrictions (No_Dependence => System.Machine_Code);\npragma Restrictions (No_Dependence => Machine_Code);\n"

/-- The constant `SPARK_ADC` of `project.py`, character for character. -/
def SPARK_ADC : String :=
  "\npragma Profile(GNAT_Extended_Ravenscar);\npragma Partition_Elaboration_Policy(Sequential);\npragma SPARK_Mode (On);\npragma Warnings (Off, \"no Global contract available\");\npragma Warnings (Off, \"subprogram * has no effect\");\npragma Warnings (Off, \"file name does not match\");\n"

def TEMP_WORKSPACE_BASEDIR : String := "/workspace/sessions"

/-- Python `str.split()` with no argument: split on runs of whitespace,
dropping empty tokens (used on the contents of `cli.txt`). -/
def pySplit (s : String) : List String :=
  (s.split fun c => c.isWhitespace).filter fun t => !(t == "")

/-- Python `name.split('.')[0]` (`self.main = mains[0].split('.')[0]`):
the first dot-separated segment, i.e. the prefix of the name before its
first dot. -/
def firstDotPrefix (n : String) : String := String.mk (n.data.takeWhile fun c => !(c == '.'))

/-- Mirrors `find_mains` of the missing `.file` module, modelled from the
spec: scan the source files and return the names of those matching the
entry-point (main subprogram) signature, in file order; the signature
test itself is the `Env.is_main` parameter, applied to each file
independently. -/
def find_mains (env : Env) (fl : List PFile) : List String :=
  (fl.filter env.is_main).map fun f => f.name

/-- One iteration of the `for file in files` loop of `Project.__init__`:
a file named `cli.txt` is parsed (whitespace split) into `self.cli`, one
named `lab_io.txt` into `self.lab_list`, anything else is appended to
`source_files`.  The accumulator is `(cli, lab_list, source_files)`. -/
def scanStep (env : Env) (acc : Option (List String) × Option (List Lab) × List RawFile)
    (file : RawFile) : Option (List String) × Option (List Lab) × List RawFile :=
  if file.basename = CLI_FILE then (some (pySplit file.contents), acc.2.1, acc.2.2)
  else if file.basename = LAB_IO_FILE then (acc.1, some (env.parseLabs file.contents), acc.2.2)
  else (acc.1, acc.2.1, acc.2.2 ++ [file])

/-- The whole stripping loop of `Project.__init__`.  `none` in the second
component models the Python attribute `self.lab_list` never being
assigned (it is only set inside the `elif` branch). -/
def scanFiles (env : Env) (files : List RawFile) :
    Option (List String) × Option (List Lab) × List RawFile :=
  files.foldl (scanStep env) (none, none, [])

/-- `self.file_list` right after the loop: the surviving uploads through
`new_file(f['basename'], f['contents'])`. -/
def sourcePFiles (env : Env) (files : List RawFile) : List PFile :=
  (scanFiles env files).2.2.map fun f => new_file f.basename f.contents

/-- The language list of `Project.__init__`: `"Ada"`, `"c"`, `"c++"`, in
that fixed order, each present when some source file has that
language. -/
def projectLanguages (env : Env) (fl : List PFile) : List String :=
  (if fl.any fun l => env.language l = "Ada" then ["Ada"] else []) ++
  (if fl.any fun l => env.language l = "c" then ["c"] else []) ++
  (if fl.any fun l => env.language l = "c++" then ["c++"] else [])

/-- `self.main` as `Project.__init__` computes it in the zero-or-one-main
case: the first detected main's name cut at its first dot. -/
def entryPoint (env : Env) (files : List RawFile) : Option String :=
  (find_mains env (sourcePFiles env files)).head?.map firstDotPrefix

/-- The argument of `gpr.define_mains`: `[self.main]` when a single main
was found, nothing otherwise (the template's default). -/
def mainsDecl (env : Env) (files : List RawFile) : List String :=
  (entryPoint env files).elim [] fun m => [m]

/-- The `Project` object after `__init__` returns: `lab_list = none`
models the attribute never having been assigned.  `gpr_languages` and
`gpr_mains` record what `insert_languages` / `define_mains` embedded in
the manifest. -/
structure Project where
  file_list : List PFile
  cli : Option (List String)
  spark : Bool
  lab_list : Option (List Lab)
  main : Option String
  gpr_languages : List String
  gpr_mains : List String
  deriving Repr, DecidableEq

/-- The successfully assembled project of `Project.__init__`: user files
in order, then the manifest (`main.gpr`, the rendered template), then the
generated `main.adc` whose content is `COMMON_ADC`, with `'\n' +
SPARK_ADC` appended in spark mode. -/
def assembleOk (env : Env) (files : List RawFile) (spark_mode : Bool) : Project :=
  { file_list := sourcePFiles env files ++
      [new_file "main.gpr"
         (env.gprRender env.gprTemplate (projectLanguages env (sourcePFiles env files))
           (mainsDecl env files)),
       new_file "main.adc" (COMMON_ADC ++ (if spark_mode then "\n" ++ SPARK_ADC else ""))],
    cli := (scanFiles env files).1,
    spark := spark_mode,
    lab_list := (scanFiles env files).2.1,
    main := entryPoint env files,
    gpr_languages := projectLanguages env (sourcePFiles env files),
    gpr_mains := mainsDecl env files }

/-- `Project.__init__` as a fallible constructor: it raises the base
`ProjectError("More than one main found in project")` when `find_mains`
returns more than one name, and otherwise yields the assembled
project. -/
def mkProject (env : Env) (files : List RawFile) (spark_mode : Bool) : Except PyError Project :=
  if (find_mains env (sourcePFiles env files)).length > 1 then
    .error (.projectError "More than one main found in project")
  else
    .ok (assembleOk env files spark_mode)

/-- One archive member written by `zf.writestr(f.get_name(), f.get_content())`.
`zipfile.writestr` with a plain string name builds
`ZipInfo(name, date_time=time.localtime(time.time())[:6])`, so every
member's local header carries the wall-clock time of the call; with the
fixed settings (`ZIP_DEFLATED`, default level) the archive bytes are an
injective function of this entry sequence.  `date_time` is the clock
reading, abstracted to a single number. -/
structure ZipEntry where
  name : String
  date_time : Nat
  content : String
  deriving Repr, DecidableEq

/-- `Project.zip`: every file of `self.file_list`, in list order, written
into the in-memory archive; `now` is the wall clock `writestr` reads. -/
def Project.zip (p : Project) (now : Nat) : List ZipEntry :=
  p.file_list.map fun f => ⟨f.name, now, f.content⟩

/-- The `RemoteProject` object after `__init__`: the parent `Project`
plus the workspace paths.  `local_tempd = none` models the attribute
never having been assigned because the constructor raised before
`tempfile.mkdtemp()` ran (the `super().__init__` call precedes it). -/
structure RemoteProject extends Project where
  task_id : String
  remote_tempd : String
  local_tempd : Option String
  deriving Repr, DecidableEq

/-- `RemoteProject.__init__`: assemble the parent project, then allocate
a unique temp name (`tmp_name`, the nondeterministic `mkdtemp` basename,
passed in explicitly) and derive the remote workspace path under
`TEMP_WORKSPACE_BASEDIR`. -/
def mkRemoteProject (env : Env) (task_id tmp_name : String) (files : List RawFile)
    (spark_mode : Bool) : Except PyError RemoteProject :=
  (mkProject env files spark_mode).map fun p =>
    { toProject := p,
      task_id := task_id,
      remote_tempd := TEMP_WORKSPACE_BASEDIR ++ "/" ++ tmp_name,
      local_tempd := some ("/tmp/" ++ tmp_name) }

/-- Python truthiness of `self.main` (`if not self.main`): `None` and the
empty string are falsy. -/
def optStrTruthy : Option String → Bool
  | none => false
  | some s => !s.isEmpty

/-- Python truthiness of an optional argument list (`if not cli`):
`None` and the empty list are falsy. -/
def optListTruthy : Option (List String) → Bool
  | none => false
  | some l => !l.isEmpty

/-- Lines 281-285 of `run`: keep the explicit `cli` when truthy, else
fall back to the truthy `self.cli`, else the empty list. -/
def effectiveCli (self_cli cli : Option (List String)) : List String :=
  if optListTruthy cli then cli.getD []
  else if optListTruthy self_cli then self_cli.getD []
  else []

/-- `os.path.join` for the relative second components the code uses. -/
def pathJoin (a b : String) : String := a ++ "/" ++ b

/-- The exact command list `run` hands to `container.execute_noenv`:
`sudo -u unprivileged timeout 10s bash -c
'LD_PRELOAD=/preloader.so <exe> `echo <args space-joined>`'`. -/
def runCommandLine (remote_tempd main_name : String) (cli : List String) : List String :=
  ["sudo", "-u", "unprivileged", "timeout", "10s", "bash", "-c",
    "LD_PRELOAD=/preloader.so " ++ pathJoin remote_tempd main_name ++ " `echo " ++
      String.intercalate " " cli ++ "`"]

/-- One command issued to the container, tagged with the `lab_ref` the
reporter would attach. -/
structure RunEvent where
  lab_ref : Option String
  line : List String
  deriving Repr, DecidableEq

/-- `RemoteProject.run`: raise `RunError` when `self.main` is falsy,
otherwise resolve the arguments, execute the fixed command line in the
container (`execNoenv`, the external collaborator, modelled as a pure
function to `(exit code, stdout)`), and return `(code, out)`.  The second
component is the list of commands actually issued to the container. -/
def RemoteProject.run (rp : RemoteProject) (execNoenv : List String → Int × String)
    (lab_ref : Option String) (cli : Option (List String)) :
    Except PyError (Int × String) × List RunEvent :=
  if !optStrTruthy rp.main then
    (.error (.runError "Cannot run program without main"), [])
  else
    let line := runCommandLine rp.remote_tempd (rp.main.getD "") (effectiveCli rp.cli cli)
    (.ok (execNoenv line), [⟨lab_ref, line⟩])

/-- The command `run` issues for one lab of the `submit` loop
(`self.run(lab_ref=lab.get_key(), cli=lab.get_input())`). -/
def labCmd (rp : RemoteProject) (lab : Lab) : List String :=
  runCommandLine rp.remote_tempd (rp.main.getD "") (effectiveCli rp.cli (some lab.input))

/-- The `for lab in self.lab_list.loop()` body of `submit`: run the case
with its key and input, record `(actual output, exit code)` on it
(`check_actual`), and accumulate the oracle booleans (modelled from the
spec: exact string match of actual against expected output).  A run
exception propagates and aborts the remaining cases. -/
def submitLoop (rp : RemoteProject) (execNoenv : List String → Int × String) :
    List Lab → Except PyError (List Bool × List GradedLab) × List RunEvent
  | [] => (.ok ([], []), [])
  | lab :: rest =>
    match rp.run execNoenv (some lab.key) (some lab.input) with
    | (.error e, log) => (.error e, log)
    | (.ok (code, out), log) =>
      match submitLoop rp execNoenv rest with
      | (.error e, log2) => (.error e, log ++ log2)
      | (.ok (succs, graded), log2) =>
        (.ok ((out == lab.expected) :: succs, ⟨lab, out, code⟩ :: graded), log ++ log2)

/-- `RemoteProject.submit`: `SubmitError` when `self.main` is falsy; then
the read of `self.lab_list` raises `AttributeError` when the attribute
was never assigned (no `lab_io.txt` was uploaded); a present but falsy
lab list (modelled from the spec as sequence truthiness: empty is falsy)
raises `SubmitError("No lab io sent with project")`; otherwise the loop
runs and `rep.lab(all(successes), results)` reports the aggregate

verdict together with the per-case results, which this model returns. -/
def RemoteProject.submit (rp : RemoteProject) (execNoenv : List String → Int × String) :
    Except PyError (Bool × List GradedLab) × List RunEvent :=
  if !optStrTruthy rp.main then
    (.error (.submitError "Cannot run program without main"), [])
  else
    match rp.lab_list with
    | none => (.error (.attributeError "lab_list"), [])
    | some labs =>
      if labs.isEmpty then
        (.error (.submitError "No lab io sent with project"), [])
      else
        match submitLoop rp execNoenv labs with
        | (.error e, log) => (.error e, log)
        | (.ok (succs, graded), log) => (.ok (succs.all id, graded), log)

/-- `shutil.rmtree(path)` without `ignore_errors`: removes the directory
when it exists, raises `FileNotFoundError` when it does not.  The local
filesystem is the set of existing staging directories. -/
def rmtree (fs : List String) (path : String) : Except PyError (List String) :=
  if path ∈ fs then .ok (fs.filter fun q => !(q == path)) else .error (.fileNotFoundError path)

/-- `RemoteProject.__del__`: `shutil.rmtree(self.local_tempd)` followed by
`self.container.rmdir(self.remote_tempd)`.  The container's `rmdir` is the
out-of-scope collaborator and is modelled as total, so the outcome is
decided by the local removal; `local_tempd = none` models the attribute
being unset because `__init__` raised before `mkdtemp` assigned it, in
which case the attribute read itself raises `AttributeError`. -/
def delCleanup (local_tempd : Option String) (fs : List String) : Except PyError (List String) :=
  match local_tempd with
  | none => .error (.attributeError "local_tempd")
  | some d => rmtree fs d

/-- Reading of C6's spec sentence, for comparison with the code's
`effectiveCli`: the explicitly supplied argument when one is supplied,
else the stored `cli_args` when present, else empty. -/
def specEffectiveCli (self_cli cli : Option (List String)) : List String :=
  match cli with
  | some l => l
  | none =>
    match self_cli with
    | some l => l
    | none => []

/-- Reading of C8's spec sentence, for comparison with the code's
`firstDotPrefix`: the basename with its extension stripped, i.e.
everything before the last dot when the name has one. -/
def specStripExt (n : String) : String :=
  if n.data.contains '.' then
    String.mk (((n.data.reverse.dropWhile fun c => !(c == '.')).drop 1).reverse)
  else n

/-- Suffix test for the concrete environment, written structurally so
that proofs can evaluate it. -/
def strHasSuffix (s suffix : String) : Bool :=
  suffix.data.reverse.isPrefixOf s.data.reverse

/-- A concrete environment for witnesses: the main-subprogram signature
is modelled as the file content being the token `MAIN`, the language
heuristic keys on the Ada extensions, and the manifest renderer joins its
inputs. -/
def envEx : Env :=
  { is_main := fun f => f.content == "MAIN",
    language := fun f =>
      if strHasSuffix f.name ".adb" || strHasSuffix f.name ".ads" then "Ada" else "",
    gprTemplate := "project Main is end Main;",
    gprRender := fun t ls ms => t ++ "|" ++ String.intercalate "," ls ++ "|" ++
      String.intercalate "," ms,
    parseLabs := fun _ => [] }

/-- A hand-assembled project value used by witnesses. -/
def projA : Project :=
  { file_list := [⟨"a.adb", "X"⟩], cli := none, spark := false, lab_list := none,
    main := none, gpr_languages := [], gpr_mains := [] }

/-- The same file list as `projA` under different non-file fields. -/
def projB : Project :=
  { projA with cli := some ["u"], spark := true }

/-- The spark-mode project assembled from no uploads, for witnesses. -/
def pSparkEx : Project := assembleOk envEx [] true

/-- A lab test case used by witnesses. -/
def labEx : Lab := ⟨"k", ["i"], "out"⟩

/-- A container whose every command exits 0 printing `out`. -/
def execOut : List String → Int × String := fun _ => (0, "out")

/-- A staged remote project with an entry point and one lab, for
witnesses. -/
def rpEx : RemoteProject :=
  { file_list := [], cli := none, spark := false, lab_list := some [labEx],
    main := some "main", gpr_languages := [], gpr_mains := [],
    task_id := "t", remote_tempd := "/workspace/sessions/w", local_tempd := some "/tmp/w" }

/-- `rpEx` with stored CLI arguments from a `cli.txt`. -/
def rpCli : RemoteProject := { rpEx with cli := some ["x"] }

/-- `rpEx` with no entry point. -/
def rpNoMain : RemoteProject := { rpEx with main := none }

end Learn

deriving instance DecidableEq for Except

namespace Learn

/-- Helper: `all` of an identity fold over a mapped list is `all` of the
original list (Python's `all(successes)` against the per-case oracle). -/
theorem all_id_map {α : Type} (l : List α) (f : α → Bool) : (l.map f).all id = l.all f := by
  induction l with
  | nil => rfl
  | cons a t ih => simp [List.all_cons, ih]

/-- C1: `Project.zip` is deterministic once the invocation time is fixed:
the archive entries depend on nothing but the project's file list and the
wall clock read at the call (the claim's time-independence fails, see the
counterexample). -/
theorem zip_deterministic_given_time (p q : Project) (t u : Nat)
    (hf : p.file_list = q.file_list) (ht : t = u) : p.zip t = q.zip u := by
  simp [Project.zip, hf, ht]

/-- Witness: two projects differing in every non-file field zip
identically at one time. -/
theorem zip_deterministic_given_time_witness : projA.zip 7 = projB.zip 7 :=
  zip_deterministic_given_time projA projB 7 7 rfl rfl

/-- Counterexample to C1 as stated: the same project assembled from the
same file set zips to different archives at clock readings 0 and 1,
because `writestr` stamps each entry with the current time. -/
theorem zip_time_counterexample :
    (mkProject envEx [] false).map (fun p => p.zip 0) ≠
      (mkProject envEx [] false).map (fun p => p.zip 1) := by decide

/-- C2: assembly fails (with the `ProjectError` the spec calls
AssemblyError) exactly when at least two source files match the
entry-point signature; with zero or one it succeeds and `main` is the
detected main's name cut at its first dot (absent for zero). -/
theorem assembly_mains_iff (env : Env) (files : List RawFile) (spark : Bool) :
    ((∃ e, mkProject env files spark = .error e) ↔
        2 ≤ (find_mains env (sourcePFiles env files)).length)
    ∧ (∀ p, mkProject env files spark = .ok p →
        p.main = (find_mains env (sourcePFiles env files)).head?.map firstDotPrefix)
    ∧ ((find_mains env (sourcePFiles env files)).length ≤ 1 →
        mkProject env files spark = .ok (assembleOk env files spark)) := by
  unfold mkProject
  by_cases h : (find_mains env (sourcePFiles env files)).length > 1
  · rw [if_pos h]
    exact ⟨⟨fun _ => h, fun _ => ⟨_, rfl⟩⟩,
      fun p hp => Except.noConfusion hp,
      fun hle => absurd hle (by omega)⟩
  · rw [if_neg h]
    refine ⟨⟨fun ⟨e, he⟩ => Except.noConfusion he, fun h2 => absurd h2 (by omega)⟩,
      fun p hp => ?_, fun _ => rfl⟩
    injection hp with hh
    subst hh
    rfl

/-- Witness: two files with the signature are rejected, one is accepted. -/
theorem assembly_mains_iff_witness :
    (∃ e, mkProject envEx [⟨"a.adb", "MAIN"⟩, ⟨"b.adb", "MAIN"⟩] false = .error e)
    ∧ mkProject envEx [⟨"a.adb", "MAIN"⟩] false =
        .ok (assembleOk envEx [⟨"a.adb", "MAIN"⟩] false) :=
  ⟨(assembly_mains_iff envEx [⟨"a.adb", "MAIN"⟩, ⟨"b.adb", "MAIN"⟩] false).1.mpr (by decide),
   (assembly_mains_iff envEx [⟨"a.adb", "MAIN"⟩] false).2.2 (by decide)⟩

/-- C3: the generated restrictions file is the last file of every
assembled project and its content is exactly `COMMON_ADC` without
verification mode, and exactly `COMMON_ADC`, one separating newline
(`COMMON_ADC` already ends in a line break, so the separator reads as one
blank line), then `SPARK_ADC` with it. -/
theorem restrictions_file_content (env : Env) (files : List RawFile) (spark : Bool)
    (p : Project) (h : mkProject env files spark = .ok p) :
    p.file_list.getLast? =
      some (new_file "main.adc"
        (if spark then COMMON_ADC ++ "\n" ++ SPARK_ADC else COMMON_ADC)) := by
  unfold mkProject at h
  split at h
  · exact Except.noConfusion h
  · injection h with hh
    subst hh
    show (sourcePFiles env files ++ [_, _]).getLast? = _
    rw [List.getLast?_append_cons]
    simp only [List.getLast?_cons_cons, List.getLast?_singleton, Option.some.injEq]
    cases spark <;> decide

/-- Witness: the spark-mode restrictions file of a concrete project. -/
theorem restrictions_file_content_witness :
    pSparkEx.file_list.getLast? =
      some (new_file "main.adc" (COMMON_ADC ++ "\n" ++ SPARK_ADC)) := by
  have h := restrictions_file_content envEx [] true pSparkEx rfl
  simpa using h

/-- C4: with no entry point `submit` does raise `SubmitError`, but with an
entry point and no uploaded test-specification file it raises
`AttributeError` (reading the never-assigned `self.lab_list`), not the
`SubmitError` the claim states: the guard `if not self.lab_list` is
unreachable in that case. -/
theorem submit_missing_lab_attribute :
    (mkRemoteProject envEx "t" "w" [⟨"main.adb", "MAIN"⟩] false).map
        (fun rp => (rp.submit fun _ => (0, "out")).1) =
      .ok (.error (.attributeError "lab_list"))
    ∧ (mkRemoteProject envEx "t" "w" [⟨"lab_io.txt", "x"⟩] false).map
        (fun rp => (rp.submit fun _ => (0, "out")).1) =
      .ok (.error (.submitError "Cannot run program without main")) := by
  constructor <;> decide

/-- Helper: the grading loop of `submit` runs each lab once, in parse
order, issuing exactly that lab's command, recording its container
output, and collecting its oracle verdict. -/
theorem submitLoop_eq (rp : RemoteProject) (execNoenv : List String → Int × String)
    (ht : optStrTruthy rp.main = true) (labs : List Lab) :
    submitLoop rp execNoenv labs =
      (.ok (labs.map fun lab => (execNoenv (labCmd rp lab)).2 == lab.expected,
            labs.map fun lab =>
              ⟨lab, (execNoenv (labCmd rp lab)).2, (execNoenv (labCmd rp lab)).1⟩),
       labs.map fun lab => ⟨some lab.key, labCmd rp lab⟩) := by
  induction labs with
  | nil => rfl
  | cons lab rest ih =>
    have hrun : rp.run execNoenv (some lab.key) (some lab.input) =
        (.ok (execNoenv (labCmd rp lab)), [⟨some lab.key, labCmd rp lab⟩]) := by
      simp [RemoteProject.run, ht, labCmd]
    simp only [submitLoop, hrun, ih, List.map_cons]
    rfl

/-- C5: with an entry point and a non-empty lab list, `submit` calls
`run` exactly once per test case in parse order, records each case's
actual output and exit code, and reports `overall_pass` equal to the
conjunction of the per-case oracle results (exact output match). -/
theorem submit_aggregates_oracle (rp : RemoteProject) (execNoenv : List String → Int × String)
    (labs : List Lab) (ht : optStrTruthy rp.main = true)
    (hl : rp.lab_list = some labs) (hne : labs ≠ []) :
    rp.submit execNoenv =
      (.ok (labs.all fun lab => (execNoenv (labCmd rp lab)).2 == lab.expected,
            labs.map fun lab =>
              ⟨lab, (execNoenv (labCmd rp lab)).2, (execNoenv (labCmd rp lab)).1⟩),
       labs.map fun lab => ⟨some lab.key, labCmd rp lab⟩) := by
  have hemp : labs.isEmpty = false := by
    cases labs with
    | nil => exact absurd rfl hne
    | cons a t => rfl
  simp only [RemoteProject.submit, ht, Bool.not_true, Bool.false_eq_true, if_false, hl, hemp,
    submitLoop_eq rp execNoenv ht labs]
  rw [all_id_map]

/-- Witness: one passing case yields `overall_pass = true`, its recorded
result, and a single issued command. -/
theorem submit_aggregates_oracle_witness :
    rpEx.submit execOut =
      (.ok (true, [⟨labEx, "out", 0⟩]), [⟨some "k", labCmd rpEx labEx⟩]) := by
  have h := submit_aggregates_oracle rpEx execOut [labEx] rfl rfl (by decide)
  simpa [execOut, labEx] using h

/-- Counterexample to C6 as stated: an explicitly supplied empty argument
list is "supplied", yet the code's resolution falls through to the stored
`cli.txt` arguments, diverging from the spec-worded resolution. -/
theorem cli_resolution_counterexample :
    effectiveCli (some ["x"]) (some []) = ["x"]
    ∧ specEffectiveCli (some ["x"]) (some []) = []
    ∧ effectiveCli (some ["x"]) (some []) ≠ specEffectiveCli (some ["x"]) (some []) := by
  refine ⟨rfl, rfl, by decide⟩

/-- C6 (amended): `run` issues one command whose arguments are the
explicitly supplied list when it is non-empty, else the stored `cli.txt`
list when present and non-empty, else empty — Python truthiness makes an
explicit empty list fall through. -/
theorem cli_resolution_amended (rp : RemoteProject) (execNoenv : List String → Int × String)
    (lab_ref : Option String) (cli : Option (List String))
    (ht : optStrTruthy rp.main = true) :
    (rp.run execNoenv lab_ref cli).2 =
      [⟨lab_ref, runCommandLine rp.remote_tempd (rp.main.getD "")
        (match cli with
         | some (a :: l) => a :: l
         | _ =>
           match rp.cli with
           | some (b :: l) => b :: l
           | _ => [])⟩] := by
  have hc : effectiveCli rp.cli cli =
      (match cli with
       | some (a :: l) => a :: l
       | _ =>
         match rp.cli with
         | some (b :: l) => b :: l
         | _ => []) := by
    rcases cli with _ | ⟨_ | ⟨a, l⟩⟩ <;> rcases hrp : rp.cli with _ | ⟨_ | ⟨b, m⟩⟩ <;>
      simp [effectiveCli, optListTruthy]
  simp [RemoteProject.run, ht, hc]

/-- Witness: explicit `[]` with stored `["x"]` runs with `x`. -/
theorem cli_resolution_amended_witness :
    (rpCli.run execOut none (some [])).2 =
      [⟨none, runCommandLine rpCli.remote_tempd "main" ["x"]⟩] := by
  have h := cli_resolution_amended rpCli execOut none (some []) rfl
  simpa using h

/-- Counterexample to C7 as stated: the space-joined backtick echo is not
shell-escaped, so the distinct argument lists `["a b"]` and
`["a", "b"]` produce the identical run invocation — argument splitting
is ambiguous. -/
theorem run_echo_ambiguous :
    rpEx.run execOut none (some ["a b"]) = rpEx.run execOut none (some ["a", "b"])
    ∧ (["a b"] : List String) ≠ ["a", "b"] := by
  refine ⟨rfl, by decide⟩

/-- C7 (amended): the executed command applies the fixed 10-second
timeout (`timeout 10s`), the reduced-privilege identity
(`sudo -u unprivileged`), the fixed preload (`LD_PRELOAD=/preloader.so`),
and passes the resolved arguments space-joined inside an unescaped
backtick echo substitution, which does not disambiguate argument
splitting. -/
theorem run_command_shape (rp : RemoteProject) (execNoenv : List String → Int × String)
    (lab_ref : Option String) (cli : Option (List String))
    (ht : optStrTruthy rp.main = true) :
    (rp.run execNoenv lab_ref cli).2 =
      [⟨lab_ref, ["sudo", "-u", "unprivileged", "timeout", "10s", "bash", "-c",
        "LD_PRELOAD=/preloader.so " ++ pathJoin rp.remote_tempd (rp.main.getD "") ++
          " `echo " ++ String.intercalate " " (effectiveCli rp.cli cli) ++ "`"]⟩] := by
  simp [RemoteProject.run, ht, runCommandLine]

/-- Witness: the concrete command issued for one argument. -/
theorem run_command_shape_witness :
    (rpEx.run execOut none (some ["a"])).2 =
      [⟨none, ["sudo", "-u", "unprivileged", "timeout", "10s", "bash", "-c",
        "LD_PRELOAD=/preloader.so /workspace/sessions/w/main `echo a`"]⟩] := by
  have h := run_command_shape rpEx execOut none (some ["a"]) rfl
  rw [h]
  decide

/-- Counterexample to C8 as stated: the single main `my.main.adb` gets
entry point `my` (text before the first dot), not the extension-stripped
basename `my.main` the claim requires for names with more than one
dot. -/
theorem entry_point_first_dot_counterexample :
    (mkProject envEx [⟨"my.main.adb", "MAIN"⟩] false).map Project.main = .ok (some "my")
    ∧ specStripExt "my.main.adb" = "my.main"
    ∧ ("my" : String) ≠ "my.main" := by
  refine ⟨by decide, by decide, by decide⟩

/-- C8 (amended): with exactly one detected main, the entry point is the
portion of that file's name before its first dot, and exactly that name
is embedded in the manifest's mains declaration. -/
theorem entry_point_first_dot (env : Env) (files : List RawFile) (spark : Bool)
    (p : Project) (n : String)
    (hc : find_mains env (sourcePFiles env files) = [n])
    (h : mkProject env files spark = .ok p) :
    p.main = some (firstDotPrefix n) ∧ p.gpr_mains = [firstDotPrefix n] := by
  unfold mkProject at h
  rw [hc] at h
  simp only [List.length_singleton, gt_iff_lt, lt_self_iff_false, if_false,
    Except.ok.injEq] at h
  subst h
  constructor <;> simp [assembleOk, entryPoint, mainsDecl, hc]

/-- Witness: the multi-dot main `my.main.adb` yields entry point `my` in
both the project and the manifest. -/
theorem entry_point_first_dot_witness :
    (assembleOk envEx [⟨"my.main.adb", "MAIN"⟩] false).main = some "my"
    ∧ (assembleOk envEx [⟨"my.main.adb", "MAIN"⟩] false).gpr_mains = ["my"] := by
  have h := entry_point_first_dot envEx [⟨"my.main.adb", "MAIN"⟩] false
    (assembleOk envEx [⟨"my.main.adb", "MAIN"⟩] false) "my.main.adb" rfl rfl
  simpa using h

/-- C9: on a project whose entry point is absent, every `run` invocation
fails with `RunError` and issues no command to the container. -/
theorem run_requires_main (rp : RemoteProject) (execNoenv : List String → Int × String)
    (lab_ref : Option String) (cli : Option (List String)) (h : rp.main = none) :
    rp.run execNoenv lab_ref cli =
      (.error (.runError "Cannot run program without main"), []) := by
  simp [RemoteProject.run, h, optStrTruthy]

/-- Witness: a concrete entry-point-free project. -/
theorem run_requires_main_witness :
    rpNoMain.run execOut none none =
      (.error (.runError "Cannot run program without main"), []) :=
  run_requires_main rpNoMain execOut none none rfl

/-- C10 (amended): teardown is neither idempotent nor total — after one
successful teardown a second invocation on the resulting filesystem
raises `FileNotFoundError` (bare `shutil.rmtree`), and teardown after a
constructor failure that preceded the local staging allocation raises
`AttributeError`. -/
theorem teardown_failure_modes (d : String) (fs fs2 : List String)
    (h : delCleanup (some d) fs = .ok fs2) :
    delCleanup (some d) fs2 = .error (.fileNotFoundError d)
    ∧ delCleanup none fs = .error (.attributeError "local_tempd") := by
  refine ⟨?_, rfl⟩
  have h2 : rmtree fs d = .ok fs2 := h
  unfold rmtree at h2
  split at h2
  · injection h2 with hh
    subst hh
    show rmtree (fs.filter fun q => !(q == d)) d = Except.error (PyError.fileNotFoundError d)
    have hnm : d ∉ fs.filter fun q => !(q == d) := by simp [List.mem_filter]
    unfold rmtree
    rw [if_neg hnm]
  · exact Except.noConfusion h2

/-- Witness: the failure modes at a concrete workspace. -/
theorem teardown_failure_modes_witness :
    delCleanup (some "/tmp/w") [] = .error (.fileNotFoundError "/tmp/w")
    ∧ delCleanup none ["/tmp/w"] = .error (.attributeError "local_tempd") :=
  teardown_failure_modes "/tmp/w" ["/tmp/w"] [] (by decide)

/-- Counterexample to C10 as stated: a teardown succeeds once, but
repeating it (the staging directory now gone) raises instead of
succeeding idempotently, and teardown after a partial staging failure
raises `AttributeError`. -/
theorem teardown_counterexample :
    delCleanup (some "/tmp/w") ["/tmp/w"] = .ok []
    ∧ delCleanup (some "/tmp/w") [] = .error (.fileNotFoundError "/tmp/w")
    ∧ delCleanup none ["/tmp/w"] = .error (.attributeError "local_tempd") := by
  refine ⟨by decide, by decide, rfl⟩

end Learn
